import Mathlib

/-!
Shallow embedding of the brigade-heatmap synchronization engine.

Sources embedded:
- src/heatmap/database.py      (DatabaseManager: devices / alarms / gps tables)
- src/heatmap/device_sync_service.py (DeviceSyncService.sync_devices)
- src/heatmap/gps_tracking_service.py (GPSTrackingService.sync_gps_data, _store_gps_data)
- src/docker/alarm_sync_service.py (AlarmSyncService.sync_alarms)
- src/docker/scheduler.py      (DeviceSyncScheduler._scheduler_loop)

Modelling conventions:
- SQLite tables are lists of row structures; `CURRENT_TIMESTAMP` is an
  abstract tick (a natural number) passed to each mutating operation.
- Python floats appearing in the services are modelled by their exact
  rational values (every IEEE double is a rational, and the comparisons
  performed by the code against integer constants are exact).
- Wall-clock datetimes are modelled as rational seconds since the epoch.
- Per-record `try/except` blocks around store operations are modelled by a
  boolean fault oracle indexed by the record's position in the batch
  (`fault i = true` means the i-th record's store operation raised). The
  GPS store write has its own fault oracle: `store_gps_data` catches its
  exceptions and returns `False` with nothing written, and the GPS service
  ignores that return value.
- The database schema file (database_schema.sql) is not among the sources;
  its uniqueness constraints are modelled from the spec where noted.
-/

namespace BrigadeHeatmap

/-! ### Python value helpers -/

/-- Python `a or b` where `a` is an optional string and `b` a string:
`None` and the empty string are falsy. -/
def pyOrStr (a : Option String) (b : String) : String :=
  match a with
  | none => b
  | some s => if s = "" then b else s

/-- Python `a or b` for two optional strings (the result may itself be
absent or empty, exactly as in Python). -/
def pyOrStrOpt (a b : Option String) : Option String :=
  match a with
  | none => b
  | some s => if s = "" then b else some s

/-- Python `a or b` where `a` is an optional integer and `b` an integer:
`None` and `0` are falsy. -/
def pyOrInt (a : Option Int) (b : Int) : Int :=
  match a with
  | none => b
  | some n => if n = 0 then b else n

/-! ### Devices table (database.py lines 56-265) -/

/-- Raw device payload as returned by the API (JSON dict; absent keys are
`none`). Field inventory follows `_normalize_device_data`. -/
structure RawDevice where
  carlicence : Option String
  carlicense : Option String
  terid : Option String
  deviceid : Option String
  sim : Option String
  channel : Option Int
  channelcount : Option Int
  platecolor : Option Int
  groupid : Option Int
  cname : Option String
  devicetype : Option String
  linktype : Option String
  deviceusername : Option String
  devicepassword : Option String
  registerip : Option String
  registerport : Option Int
  transmitip : Option String
  transmitport : Option Int
  en : Option Int
  companybranch : Option String
  companyname : Option String
deriving DecidableEq

/-- Result of `_normalize_device_data` (database.py lines 56-80). -/
structure NormDevice where
  carlicense : String
  terid : Option String
  sim : String
  channel : Int
  platecolor : Int
  groupid : Int
  cname : String
  devicetype : String
  linktype : String
  deviceusername : String
  devicepassword : String
  registerip : String
  registerport : Int
  transmitip : String
  transmitport : Int
  en : Int
  companybranch : String
  companyname : String
deriving DecidableEq

/-- Embeds `_normalize_device_data` (database.py lines 56-80): each field is
a chain of Python `or`-defaults. -/
def normalize_device_data (d : RawDevice) : NormDevice where
  carlicense := pyOrStr d.carlicence (pyOrStr d.carlicense "Unknown")
  terid := pyOrStrOpt d.terid d.deviceid
  sim := pyOrStr d.sim "Unknown"
  channel := pyOrInt d.channel (pyOrInt d.channelcount 0)
  platecolor := pyOrInt d.platecolor 0
  groupid := pyOrInt d.groupid 0
  cname := pyOrStr d.cname ""
  devicetype := pyOrStr d.devicetype "0"
  linktype := pyOrStr d.linktype "0"
  deviceusername := pyOrStr d.deviceusername ""
  devicepassword := pyOrStr d.devicepassword ""
  registerip := pyOrStr d.registerip ""
  registerport := pyOrInt d.registerport 0
  transmitip := pyOrStr d.transmitip ""
  transmitport := pyOrInt d.transmitport 0
  en := pyOrInt d.en 0
  companybranch := pyOrStr d.companybranch ""
  companyname := pyOrStr d.companyname ""

/-- Row of the `devices` table (columns named in the INSERT/UPDATE
statements of database.py lines 100-162; the autoincrement `id` column is
not modelled, no embedded operation depends on it).
Modelled from the spec: the schema file is not among the sources; per the
data model ("at most one row per `terid`", terid a unique identifier) the
`terid` column is taken as NOT NULL. -/
structure DeviceRow where
  car_license : String
  terid : String
  sim : String
  channel : Int
  plate_color : Int
  group_id : Int
  cname : String
  device_type : String
  link_type : String
  device_username : String
  device_password : String
  register_ip : String
  register_port : Int
  transmit_ip : String
  transmit_port : Int
  channel_enable : Int
  company_branch : String
  company_name : String
  last_updated : Nat
deriving DecidableEq

/-- Device row written for normalized data `nd` under key `t` at time `now`.
The INSERT path (database.py lines 227-256) writes exactly these columns;
the UPDATE path (lines 193-223) sets the same columns except `terid` (kept
from the existing row) and stamps `last_updated = CURRENT_TIMESTAMP`. -/
def rowOfNorm (nd : NormDevice) (t : String) (now : Nat) : DeviceRow where
  car_license := nd.carlicense
  terid := t
  sim := nd.sim
  channel := nd.channel
  plate_color := nd.platecolor
  group_id := nd.groupid
  cname := nd.cname
  device_type := nd.devicetype
  link_type := nd.linktype
  device_username := nd.deviceusername
  device_password := nd.devicepassword
  register_ip := nd.registerip
  register_port := nd.registerport
  transmit_ip := nd.transmitip
  transmit_port := nd.transmitport
  channel_enable := nd.en
  company_branch := nd.companybranch
  company_name := nd.companyname
  last_updated := now

/-- Counters returned by `upsert_devices_batch`. -/
structure BatchCounts where
  inserted : Nat
  updated : Nat
  failed : Nat
deriving DecidableEq

def BatchCounts.add (c d : BatchCounts) : BatchCounts :=
  ⟨c.inserted + d.inserted, c.updated + d.updated, c.failed + d.failed⟩

/-- One iteration of the loop in `upsert_devices_batch` (database.py lines
179-262): on a store fault the whole record counts as failed; otherwise the
record is normalized, a SELECT by `terid` decides between the UPDATE and
INSERT paths. A normalized `terid` of NULL makes the INSERT violate the
(spec-modelled) NOT NULL constraint, landing in the `except` branch. -/
def upsertDeviceStep (now : Nat) (fault : Bool) (d : RawDevice)
    (store : List DeviceRow) : List DeviceRow × BatchCounts :=
  if fault then (store, ⟨0, 0, 1⟩)
  else
    let nd := normalize_device_data d
    match nd.terid with
    | none => (store, ⟨0, 0, 1⟩)
    | some t =>
      if store.any (fun r => r.terid == t) then
        (store.map (fun r => if r.terid == t then rowOfNorm nd r.terid now else r),
         ⟨0, 1, 0⟩)
      else
        (store ++ [rowOfNorm nd t now], ⟨1, 0, 0⟩)

/-- Embeds `upsert_devices_batch` (database.py lines 172-265): processes
devices in order, accumulating inserted/updated/failed counts. -/
def upsert_devices_batch (now : Nat) (fault : Nat → Bool) :
    List RawDevice → List DeviceRow → List DeviceRow × BatchCounts
  | [], store => (store, ⟨0, 0, 0⟩)
  | d :: ds, store =>
    let s1 := upsertDeviceStep now (fault 0) d store
    let s2 := upsert_devices_batch now (fun i => fault (i + 1)) ds s1.1
    (s2.1, s1.2.add s2.2)

/-- Number of rows of the devices table carrying a given `terid`. -/
def teridCount (t : String) (store : List DeviceRow) : Nat :=
  store.countP (fun r => r.terid == t)

/-! ### Alarms table (database.py lines 328-430) -/

/-- Raw alarm payload as returned by the API; the 13 fields read by
`insert_alarms_batch`. Values are stored verbatim. -/
structure RawAlarm where
  terid : Option String
  gpstime : Option String
  altitude : Option Int
  direction : Option Int
  gpslat : Option String
  gpslng : Option String
  speed : Option Int
  recordspeed : Option Int
  state : Option Int
  time : Option String
  type : Option Int
  content : Option String
  cmdtype : Option Int
deriving DecidableEq

/-- Row of the `alarms` table (columns of the INSERT statement, database.py
lines 390-395; `id` and `created_at` are not modelled, no embedded
operation depends on them). -/
structure AlarmRow where
  terid : Option String
  gps_time : Option String
  altitude : Option Int
  direction : Option Int
  gps_lat : Option String
  gps_lng : Option String
  speed : Option Int
  record_speed : Option Int
  state : Option Int
  server_time : Option String
  alarm_type : Option Int
  alarm_content : Option String
  cmd_type : Option Int
deriving DecidableEq

/-- Alarm row written for raw alarm `a` (value order of database.py lines
398-412). -/
def alarmRowOf (a : RawAlarm) : AlarmRow where
  terid := a.terid
  gps_time := a.gpstime
  altitude := a.altitude
  direction := a.direction
  gps_lat := a.gpslat
  gps_lng := a.gpslng
  speed := a.speed
  record_speed := a.recordspeed
  state := a.state
  server_time := a.time
  alarm_type := a.type
  alarm_content := a.content
  cmd_type := a.cmdtype

/-- Modelled from the spec: the schema file is not among the sources; per
the data model an alarm is "identified by the tuple (`terid`,
device-reported alarm time, alarm type code, content) — uniqueness enforced
at the store". `INSERT OR IGNORE` therefore ignores a new record exactly
when an existing row agrees on that tuple; following SQLite UNIQUE
semantics, a NULL in any key column never conflicts. -/
def alarmConflict (a : RawAlarm) (r : AlarmRow) : Bool :=
  a.terid.isSome && a.gpstime.isSome && a.type.isSome && a.content.isSome &&
    r.terid == a.terid && r.gps_time == a.gpstime &&
    r.alarm_type == a.type && r.alarm_content == a.content

/-- Counters returned by `insert_alarms_batch`. -/
structure AlarmCounts where
  inserted : Nat
  duplicates : Nat
  failed : Nat
deriving DecidableEq

def AlarmCounts.add (c d : AlarmCounts) : AlarmCounts :=
  ⟨c.inserted + d.inserted, c.duplicates + d.duplicates, c.failed + d.failed⟩

/-- One iteration of the loop in `insert_alarms_batch` (database.py lines
385-427): a store fault counts the record as failed; otherwise
`INSERT OR IGNORE` inserts the row unless it conflicts with an existing one
(`rows_affected = 0` counts as a duplicate). -/
def insertAlarmStep (fault : Bool) (a : RawAlarm) (store : List AlarmRow) :
    List AlarmRow × AlarmCounts :=
  if fault then (store, ⟨0, 0, 1⟩)
  else if store.any (fun r => alarmConflict a r) then (store, ⟨0, 1, 0⟩)
  else (store ++ [alarmRowOf a], ⟨1, 0, 0⟩)

/-- Embeds `insert_alarms_batch` (database.py lines 378-430). -/
def insert_alarms_batch (fault : Nat → Bool) :
    List RawAlarm → List AlarmRow → List AlarmRow × AlarmCounts
  | [], store => (store, ⟨0, 0, 0⟩)
  | a :: as_, store =>
    let s1 := insertAlarmStep (fault 0) a store
    let s2 := insert_alarms_batch (fun i => fault (i + 1)) as_ s1.1
    (s2.1, s1.2.add s2.2)

/-! ### GPS table (database.py lines 619-664) -/

/-- Row of the `gps` table (columns of the REPLACE statement, database.py
lines 636-642). -/
structure GpsRow where
  terid : String
  car_license : Option String
  gps_time : Option String
  latitude : ℚ
  longitude : ℚ
  altitude : Option Int
  speed : Option Int
  recordspeed : Option Int
  direction : Option Int
  state : Option Int
  address : Option String
  last_updated : Nat
deriving DecidableEq

/-- Embeds `store_gps_data` (database.py lines 619-664): `REPLACE INTO gps`
deletes every row conflicting with the new one and inserts it.
Modelled from the spec: the schema file is not among the sources; per the
data model the `gps` table holds "one logical row per device (`terid`
unique)", so the REPLACE conflict key is `terid`. -/
def store_gps_data (r : GpsRow) (gps : List GpsRow) : List GpsRow :=
  gps.filter (fun x => !(x.terid == r.terid)) ++ [r]

/-- Embeds the whole of `store_gps_data` including its exception handler
(database.py lines 631-664): on a store fault (`fault = true`) the
exception is caught, the transaction is rolled back and the function
returns `False` with nothing written; otherwise the REPLACE runs and the
function returns `True`. -/
def store_gps_data_checked (fault : Bool) (r : GpsRow) (gps : List GpsRow) :
    Bool × List GpsRow :=
  if fault then (false, gps)
  else (true, store_gps_data r gps)

/-! ### Database reads used by the services -/

/-- Full database state owned by `DatabaseManager`. -/
structure DB where
  devices : List DeviceRow
  alarms : List AlarmRow
  gps : List GpsRow
deriving DecidableEq

def insertSorted (le : α → α → Bool) (a : α) : List α → List α
  | [] => [a]
  | b :: l => if le a b then a :: b :: l else b :: insertSorted le a l

/-- Insertion sort, modelling a SQL `ORDER BY` clause. -/
def sortBy (le : α → α → Bool) : List α → List α
  | [] => []
  | a :: l => insertSorted le a (sortBy le l)

/-- Embeds `get_all_devices` (database.py lines 267-277):
`SELECT * FROM devices ORDER BY car_license`. -/
def get_all_devices (db : DB) : List DeviceRow :=
  sortBy (fun a b => decide (a.car_license ≤ b.car_license)) db.devices

/-- Embeds `get_device_by_terid` (database.py lines 279-289): `fetchone` on
`SELECT * FROM devices WHERE terid = ?`. -/
def get_device_by_terid (db : DB) (t : String) : Option DeviceRow :=
  db.devices.find? (fun r => r.terid == t)

/-- Embeds `get_all_device_terids` (database.py lines 314-324):
`SELECT terid FROM devices ORDER BY terid`. -/
def get_all_device_terids (db : DB) : List String :=
  (sortBy (fun a b => decide (a ≤ b)) (db.devices.map (fun r => r.terid)))

/-! ### GPS tracking service (gps_tracking_service.py) -/

/-- Raw GPS position record as returned by the API. A field value of `none`
means the key is absent; `some none` means the value is present but its
`float()`/`int()` conversion raises; `some (some v)` is a converted value. -/
structure GpsPoint where
  terid : Option String
  gpslat : Option (Option ℚ)
  gpslng : Option (Option ℚ)
  altitude : Option (Option Int)
  speed : Option (Option Int)
  recordspeed : Option (Option Int)
  direction : Option (Option Int)
  state : Option (Option Int)
  gpstime : Option String
deriving DecidableEq

/-- Result of `float(gps_point.get(key, 0))` (gps_tracking_service.py lines
70-71): an absent key defaults to `0`; an unconvertible value raises
(`none`, caught at lines 82-84). -/
def resolveCoord : Option (Option ℚ) → Option ℚ
  | none => some 0
  | some none => none
  | some (some q) => some q

/-- Embeds `_safe_int` (gps_tracking_service.py lines 116-123): `None` and
unconvertible values both become `None`. -/
def safe_int (v : Option (Option Int)) : Option Int :=
  v.bind id

/-- Embeds `_parse_timestamp` (gps_tracking_service.py lines 125-135). The
`strptime` format check is abstracted by the oracle `tsOk`; a parsed
datetime is carried as its source string. -/
def parse_timestamp (tsOk : String → Bool) : Option String → Option String
  | none => none
  | some s => if s = "" then none else if tsOk s then some s else none

/-- Embeds `_store_gps_data` (gps_tracking_service.py lines 55-114).
Returns the Boolean the source returns, the resulting database, and the
row actually written by the REPLACE, if any. After validation the source
calls `store_gps_data` and returns `True` without inspecting its result
(lines 97-110), so a failed write (`wfault = true`, the store's caught
exception, database.py lines 662-664) still yields `true` while nothing
is written. -/
def storeGpsPoint (tsOk : String → Bool) (now : Nat) (wfault : Bool)
    (db : DB) (p : GpsPoint) : Bool × DB × Option GpsRow :=
  match p.terid with
  | none => (false, db, none)
  | some t =>
    if t = "" then (false, db, none)
    else
      let car_license := (get_device_by_terid db t).map (fun r => r.car_license)
      match resolveCoord p.gpslat, resolveCoord p.gpslng with
      | some lat, some lng =>
        if lat = 0 ∧ lng = 0 then (false, db, none)
        else if ¬(-90 ≤ lat ∧ lat ≤ 90) ∨ ¬(-180 ≤ lng ∧ lng ≤ 180) then
          (false, db, none)
        else
          let row : GpsRow :=
            { terid := t
              car_license := car_license
              gps_time := parse_timestamp tsOk p.gpstime
              latitude := lat
              longitude := lng
              altitude := safe_int p.altitude
              speed := safe_int p.speed
              recordspeed := safe_int p.recordspeed
              direction := safe_int p.direction
              state := safe_int p.state
              address := none
              last_updated := now }
          let written := store_gps_data_checked wfault row db.gps
          (true, { db with gps := written.2 },
           if written.1 then some row else none)
      | _, _ => (false, db, none)

/-- Observable actions of one GPS sync cycle: the position fetch, a record
accepted by `_store_gps_data` (counted towards `success_count`), and a row
actually persisted by the store. -/
inductive GpsEvent where
  | apiCall (ids : List String)
  | accepted (p : GpsPoint)
  | write (row : GpsRow)
deriving DecidableEq

/-- The per-record loop of `sync_gps_data` (gps_tracking_service.py lines
43-46): counts the records for which `_store_gps_data` returned `True`
(one accepted event each), with a write event for each row the store
actually persisted; the write-fault oracle is indexed by the record's
position. -/
def processGpsPoints (tsOk : String → Bool) (now : Nat) :
    (Nat → Bool) → DB → List GpsPoint → Nat × DB × List GpsEvent
  | _, db, [] => (0, db, [])
  | wfault, db, p :: ps =>
    let s := storeGpsPoint tsOk now (wfault 0) db p
    let rest := processGpsPoints tsOk now (fun i => wfault (i + 1)) s.2.1 ps
    ((if s.1 then 1 else 0) + rest.1, rest.2.1,
     ((if s.1 then [GpsEvent.accepted p] else []) ++
       (match s.2.2 with
        | some row => [GpsEvent.write row]
        | none => [])) ++ rest.2.2)

/-- Modelled from the spec: the heatmap `api_client.py` is not among the
sources (only `src/docker/api_client.py`, which lacks the GPS operation).
Per the spec the authenticated client "exposes typed fetch operations
(devices, alarm details by device-batch and time window, latest GPS
positions)", the positions operation taking the device-identifier list and
returning raw payloads, with failures surfaced as an explicit no-data
signal (`none`). -/
structure BrigadeAPIClient where
  get_last_gps_positions : List String → Option (List GpsPoint)

/-- Embeds `sync_gps_data` (gps_tracking_service.py lines 23-53). Returns
the overall boolean, the resulting database and the event trace. -/
def sync_gps_data (client : BrigadeAPIClient) (tsOk : String → Bool)
    (now : Nat) (wfault : Nat → Bool) (db : DB) : Bool × DB × List GpsEvent :=
  let devices := get_all_devices db
  if devices = [] then (false, db, [])
  else
    let device_ids := devices.map (fun d => d.terid)
    match client.get_last_gps_positions device_ids with
    | none => (false, db, [GpsEvent.apiCall device_ids])
    | some gpsData =>
      if gpsData = [] then (false, db, [GpsEvent.apiCall device_ids])
      else
        let res := processGpsPoints tsOk now wfault db gpsData
        (decide (0 < res.1), res.2.1, GpsEvent.apiCall device_ids :: res.2.2)

/-- The rows written during a GPS sync cycle, read off the event trace. -/
def gpsWrites (evs : List GpsEvent) : List GpsRow :=
  evs.filterMap (fun e => match e with
    | GpsEvent.write r => some r
    | _ => none)

/-- The records counted as successes during a GPS sync cycle (those for
which `_store_gps_data` returned `True`), read off the event trace. -/
def gpsAccepts (evs : List GpsEvent) : List GpsPoint :=
  evs.filterMap (fun e => match e with
    | GpsEvent.accepted p => some p
    | _ => none)

/-- The argument lists of the GPS-position fetches in an event trace. -/
def gpsApiCalls (evs : List GpsEvent) : List (List String) :=
  evs.filterMap (fun e => match e with
    | GpsEvent.apiCall ids => some ids
    | _ => none)

/-! ### Device sync service (device_sync_service.py) -/

/-- State of `DeviceSyncService` relevant to `sync_devices`: the in-progress
flag and the devices table. -/
structure DeviceSyncState where
  sync_in_progress : Bool
  devices : List DeviceRow
deriving DecidableEq

/-- Observable actions of one device sync cycle. -/
inductive DeviceSyncEvent where
  | apiFetch
deriving DecidableEq

/-- The overall-success formula of `sync_devices` (device_sync_service.py
line 67): `results.failed == 0 or results.failed < total_processed * 0.1`.
The float product `total_processed * 0.1` is modelled by the exact rational
product: for every realistic total (checked for all multiples of 10 up to
10^6, and forced for non-multiples, whose exact tenth is at least 0.1 away
from any integer while the double rounding error is below 10^-9) the
comparison with an integer `failed` agrees with the exact one. -/
def deviceSyncSuccess (c : BatchCounts) : Bool :=
  decide (c.failed = 0) ||
    decide ((c.failed : ℚ) < ((c.inserted + c.updated + c.failed : Nat) : ℚ) * (1 / 10))

/-- Embeds `sync_devices` (device_sync_service.py lines 25-74): the
single-flight guard (lines 30-32), the fetch (lines 42-49, with `none` the
client's explicit no-data signal), the batched upsert and the success
formula (line 67). The `finally` block clears the in-progress flag. -/
def sync_devices (api_devices : Option (List RawDevice)) (fault : Nat → Bool)
    (now : Nat) (st : DeviceSyncState) :
    Bool × DeviceSyncState × List DeviceSyncEvent :=
  if st.sync_in_progress then (false, st, [])
  else
    match api_devices with
    | none => (false, ⟨false, st.devices⟩, [DeviceSyncEvent.apiFetch])
    | some ds =>
      if ds = [] then (true, ⟨false, st.devices⟩, [DeviceSyncEvent.apiFetch])
      else
        let res := upsert_devices_batch now fault ds st.devices
        (deviceSyncSuccess res.2, ⟨false, res.1⟩, [DeviceSyncEvent.apiFetch])

/-! ### Alarm sync service (alarm_sync_service.py) -/

/-- State of `AlarmSyncService` relevant to `sync_alarms`. -/
structure AlarmSyncState where
  sync_in_progress : Bool
  db : DB
deriving DecidableEq

/-- Observable actions of one alarm sync cycle. -/
inductive AlarmEvent where
  | fetchBatch (terids : List String) (startTime endTime : ℚ)
  | insertBatch (alarms : List RawAlarm)
  | cleanup
deriving DecidableEq

def chunksOfAux (n : Nat) : Nat → List α → List (List α)
  | 0, _ => []
  | _, [] => []
  | fuel + 1, l => l.take n :: chunksOfAux n fuel (l.drop n)

/-- Fixed-size batching, modelling `range(0, len(device_terids),
self.batch_size)` (alarm_sync_service.py lines 65-66). -/
def chunksOf (n : Nat) (l : List α) : List (List α) :=
  chunksOfAux n l.length l

/-- One batch iteration of `sync_alarms` (alarm_sync_service.py lines
65-95): a failed fetch adds the batch's device count to the failure
counter; a non-empty alarm list goes through `insert_alarms_batch`. -/
def alarmBatchStep (api : List String → ℚ → ℚ → Option (List RawAlarm))
    (fault : Nat → Bool) (startTime endTime : ℚ) (batch : List String)
    (store : List AlarmRow) : List AlarmRow × Nat × List AlarmEvent :=
  match api batch startTime endTime with
  | none => (store, batch.length, [AlarmEvent.fetchBatch batch startTime endTime])
  | some alarms =>
    if alarms = [] then
      (store, 0, [AlarmEvent.fetchBatch batch startTime endTime])
    else
      let res := insert_alarms_batch fault alarms store
      (res.1, res.2.failed,
       [AlarmEvent.fetchBatch batch startTime endTime, AlarmEvent.insertBatch alarms])

/-- The batch loop of `sync_alarms`, accumulating the failure counter and
the event trace across batches (the per-batch fault oracle is indexed by
the batch number). -/
def alarmBatchLoop (api : List String → ℚ → ℚ → Option (List RawAlarm))
    (fault : Nat → Nat → Bool) (startTime endTime : ℚ) :
    List (List String) → List AlarmRow → List AlarmRow × Nat × List AlarmEvent
  | [], store => (store, 0, [])
  | batch :: rest, store =>
    let s1 := alarmBatchStep api (fault 0) startTime endTime batch store
    let s2 := alarmBatchLoop api (fun i => fault (i + 1)) startTime endTime rest s1.1
    (s2.1, s1.2.1 + s2.2.1, s1.2.2 ++ s2.2.2)

/-- Truncation of a wall-clock instant to its minute:
`datetime.now().replace(second=0, microsecond=0)` for a nonnegative
seconds-since-epoch value. -/
def truncToMinute (t : ℚ) : ℚ :=
  60 * (Rat.floor (t / 60) : ℤ)

/-- The `.minute` component of a wall-clock instant. -/
def minuteOf (t : ℚ) : ℤ :=
  Rat.floor (t / 60) % 60

/-- Embeds the retention-cleanup trigger (alarm_sync_service.py lines
109-110): `last_sync_time.minute == 0 or (last_sync_time -
datetime.now().replace(second=0, microsecond=0)).total_seconds() < 300`,
where `lastSync` is the value just assigned from `datetime.now()` (line
106) and `tCheck` the later `datetime.now()` of line 110. -/
def cleanup_condition (lastSync tCheck : ℚ) : Bool :=
  decide (minuteOf lastSync = 0) || decide (lastSync - truncToMinute tCheck < 300)

/-- The overall-success formula of `sync_alarms` (alarm_sync_service.py
line 114): `total_failed == 0 or total_failed < len(device_terids) * 0.1`
(float product modelled by the exact rational, as in `deviceSyncSuccess`). -/
def alarmSyncSuccess (totalFailed deviceCount : Nat) : Bool :=
  decide (totalFailed = 0) ||
    decide ((totalFailed : ℚ) < (deviceCount : ℚ) * (1 / 10))

/-- Embeds `sync_alarms` (alarm_sync_service.py lines 29-121): single-flight
guard (lines 34-36), device read (lines 46-49, empty set is success), the
window `[tNow - lookback, tNow]` with `lookback_minutes = 10` (lines 54-58),
the batch loop with `batch_size = 50`, the retention-cleanup trigger (lines
108-111, `tLast` being the line-106 `datetime.now()` and `tCheck` the
line-110 one) and the success formula (line 114). -/
def sync_alarms (api : List String → ℚ → ℚ → Option (List RawAlarm))
    (fault : Nat → Nat → Bool) (tNow tLast tCheck : ℚ)
    (st : AlarmSyncState) : Bool × AlarmSyncState × List AlarmEvent :=
  if st.sync_in_progress then (false, st, [])
  else
    let device_terids := get_all_device_terids st.db
    if device_terids = [] then (true, ⟨false, st.db⟩, [])
    else
      let startTime := tNow - 10 * 60
      let batches := chunksOf 50 device_terids
      let res := alarmBatchLoop api fault startTime tNow batches st.db.alarms
      let cleanupEvs := if cleanup_condition tLast tCheck then [AlarmEvent.cleanup] else []
      (alarmSyncSuccess res.2.1 device_terids.length,
       ⟨false, { st.db with alarms := res.1 }⟩,
       res.2.2 ++ cleanupEvs)

/-! ### Scheduler loop (scheduler.py lines 71-98) -/

/-- Outcome of one invocation of the wrapped sync operation: a boolean
result, or an escaping exception. -/
inductive SyncOutcome where
  | success
  | failure
  | raised
deriving DecidableEq

/-- External environment of one loop iteration: whether the stop event got
set during the interval wait (line 79), whether the running flag was
cleared (lines 73 and 83), and the sync outcome. -/
structure IterEnv where
  stopDuringWait : Bool
  runningCleared : Bool
  outcome : SyncOutcome
deriving DecidableEq

/-- Result of one loop iteration. -/
structure IterResult where
  exitLoop : Bool
  syncAttempted : Bool
  cooldownSeconds : Nat
deriving DecidableEq

/-- Embeds one iteration of `_scheduler_loop` (scheduler.py lines 73-98):
the interval wait interrupted by the stop event (lines 79-81), the running
re-check (lines 83-84), the sync invocation, and the `except` handler that
logs and sleeps 60 seconds before the loop continues (lines 95-98). -/
def scheduler_iteration (e : IterEnv) : IterResult :=
  if e.stopDuringWait then ⟨true, false, 0⟩
  else if e.runningCleared then ⟨true, false, 0⟩
  else
    match e.outcome with
    | SyncOutcome.success => ⟨false, true, 0⟩
    | SyncOutcome.failure => ⟨false, true, 0⟩
    | SyncOutcome.raised => ⟨false, true, 60⟩

/-- Runs `n` iterations of the scheduler loop under environment `env`,
returning the number of sync attempts made and whether the loop is still
alive (has not exited) afterwards. -/
def scheduler_loop : Nat → (Nat → IterEnv) → Nat × Bool
  | 0, _ => (0, true)
  | n + 1, env =>
    let r := scheduler_iteration (env 0)
    if r.exitLoop then (0, false)
    else
      let rest := scheduler_loop n (fun i => env (i + 1))
      ((if r.syncAttempted then 1 else 0) + rest.1, rest.2)

/-! ### Helper lemmas -/

theorem insertSorted_ne_nil (le : α → α → Bool) (a : α) (l : List α) :
    insertSorted le a l ≠ [] := by
  cases l with
  | nil => simp [insertSorted]
  | cons b t =>
    simp only [insertSorted]
    split <;> simp

theorem sortBy_eq_nil_iff (le : α → α → Bool) (l : List α) :
    sortBy le l = [] ↔ l = [] := by
  cases l with
  | nil => simp [sortBy]
  | cons a t =>
    simp only [sortBy]
    constructor
    · intro h
      exact absurd h (insertSorted_ne_nil le a (sortBy le t))
    · intro h
      exact absurd h (List.cons_ne_nil a t)

theorem ratFloor_eq_floor (q : ℚ) : (Rat.floor q : ℤ) = ⌊q⌋ := rfl

theorem sub_truncToMinute_lt (a b : ℚ) (h : a ≤ b) :
    a - truncToMinute b < 300 := by
  unfold truncToMinute
  rw [ratFloor_eq_floor]
  have h1 : (⌊a / 60⌋ : ℤ) ≤ ⌊b / 60⌋ := by
    apply Int.floor_le_floor
    linarith
  have h1q : ((⌊a / 60⌋ : ℤ) : ℚ) ≤ ((⌊b / 60⌋ : ℤ) : ℚ) := by exact_mod_cast h1
  have h2 : a / 60 < ⌊a / 60⌋ + 1 := Int.lt_floor_add_one (a / 60)
  linarith

/-! ### Claim theorems -/

/-- Claim C3: while the in-progress flag is set, a call to the device
service's `sync_devices` or the alarm service's `sync_alarms` returns a
failure outcome immediately, performs no API fetch (empty event trace) and
no store write (the state, including the tables, is returned unchanged). -/
theorem sync_single_flight_guard
    (api_devices : Option (List RawDevice)) (fault : Nat → Bool) (now : Nat)
    (st : DeviceSyncState)
    (apiA : List String → ℚ → ℚ → Option (List RawAlarm))
    (faultA : Nat → Nat → Bool) (tNow tLast tCheck : ℚ) (stA : AlarmSyncState)
    (hd : st.sync_in_progress = true) (ha : stA.sync_in_progress = true) :
    sync_devices api_devices fault now st = (false, st, []) ∧
    sync_alarms apiA faultA tNow tLast tCheck stA = (false, stA, []) := by
  constructor
  · simp [sync_devices, hd]
  · simp [sync_alarms, ha]

theorem sync_single_flight_guard_witness :
    sync_devices none (fun _ => false) 0 ⟨true, []⟩ = (false, ⟨true, []⟩, []) ∧
    sync_alarms (fun _ _ _ => none) (fun _ _ => false) 0 0 0 ⟨true, ⟨[], [], []⟩⟩ =
      (false, ⟨true, ⟨[], [], []⟩⟩, []) :=
  sync_single_flight_guard none (fun _ => false) 0 ⟨true, []⟩ (fun _ _ _ => none)
    (fun _ _ => false) 0 0 0 ⟨true, ⟨[], [], []⟩⟩ rfl rfl

/-- Claim C6: storing two successive GPS positions for the same device
leaves exactly one row of the gps table for that device, and that row is
the most recent write. -/
theorem gps_replace_latest (g : List GpsRow) (r1 r2 : GpsRow)
    (h : r1.terid = r2.terid) :
    (store_gps_data r2 (store_gps_data r1 g)).filter
      (fun x => x.terid == r2.terid) = [r2] := by
  simp only [store_gps_data, List.filter_append, List.filter_filter]
  simp [h]

theorem gps_replace_latest_witness :
    (store_gps_data ⟨"T1", none, none, 2, 3, none, none, none, none, none, none, 1⟩
      (store_gps_data ⟨"T1", none, none, 0, 1, none, none, none, none, none, none, 0⟩
        [])).filter (fun x => x.terid == "T1") =
    [⟨"T1", none, none, 2, 3, none, none, none, none, none, none, 1⟩] :=
  gps_replace_latest []
    ⟨"T1", none, none, 0, 1, none, none, none, none, none, none, 0⟩
    ⟨"T1", none, none, 2, 3, none, none, none, none, none, none, 1⟩ rfl

/-- Claim C9: the retention-cleanup trigger condition of `sync_alarms` has
a time-delta disjunct that is true on every cycle (for any monotone pair of
`datetime.now()` readings), so the whole condition is true and retention
cleanup runs after every completed sync cycle. -/
theorem alarm_cleanup_condition_always_true :
    (∀ tLast tCheck : ℚ, tLast ≤ tCheck →
      decide (tLast - truncToMinute tCheck < 300) = true ∧
      cleanup_condition tLast tCheck = true) ∧
    (∀ (api : List String → ℚ → ℚ → Option (List RawAlarm))
      (fault : Nat → Nat → Bool) (tNow tLast tCheck : ℚ) (st : AlarmSyncState),
      st.sync_in_progress = false → get_all_device_terids st.db ≠ [] →
      tLast ≤ tCheck →
      AlarmEvent.cleanup ∈ (sync_alarms api fault tNow tLast tCheck st).2.2) := by
  have key : ∀ tLast tCheck : ℚ, tLast ≤ tCheck →
      cleanup_condition tLast tCheck = true := by
    intro a b h
    have := sub_truncToMinute_lt a b h
    simp [cleanup_condition, this]
  refine ⟨fun a b h => ⟨decide_eq_true (sub_truncToMinute_lt a b h), key a b h⟩, ?_⟩
  intro api fault tNow tLast tCheck st hst hdev h
  simp only [sync_alarms, hst, if_false, Bool.false_eq_true, key tLast tCheck h]
  simp [hdev]

theorem alarm_cleanup_condition_always_true_witness :
    (decide ((0 : ℚ) - truncToMinute 25 < 300) = true ∧
      cleanup_condition 0 25 = true) ∧
    AlarmEvent.cleanup ∈
      (sync_alarms (fun _ _ _ => none) (fun _ _ => false) 100 30 45
        ⟨false, ⟨[⟨"L", "T1", "S", 0, 0, 0, "", "0", "0", "", "", "", 0, "", 0,
          0, "", "", 0⟩], [], []⟩⟩).2.2 :=
  ⟨alarm_cleanup_condition_always_true.1 0 25 (by decide),
   alarm_cleanup_condition_always_true.2 (fun _ _ _ => none) (fun _ _ => false)
    100 30 45
    ⟨false, ⟨[⟨"L", "T1", "S", 0, 0, 0, "", "0", "0", "", "", "", 0, "", 0,
      0, "", "", 0⟩], [], []⟩⟩ rfl (by decide) (by decide)⟩

/-- Claim C10: the scheduler loop never terminates because of a sync-time
error: an iteration that is not stopped continues the loop and attempts the
sync whatever the outcome, an escaping exception only adds the fixed
60-second cooldown, and `n` iterations without a stop signal perform `n`
sync attempts with the loop still alive — for every outcome assignment,
including one that raises on every invocation. -/
theorem scheduler_loop_survives_errors :
    (∀ e : IterEnv, e.stopDuringWait = false → e.runningCleared = false →
      (scheduler_iteration e).exitLoop = false ∧
      (scheduler_iteration e).syncAttempted = true ∧
      (e.outcome = SyncOutcome.raised →
        (scheduler_iteration e).cooldownSeconds = 60)) ∧
    (∀ (n : Nat) (env : Nat → IterEnv),
      (∀ i, (env i).stopDuringWait = false ∧ (env i).runningCleared = false) →
      scheduler_loop n env = (n, true)) := by
  have iter : ∀ e : IterEnv, e.stopDuringWait = false → e.runningCleared = false →
      (scheduler_iteration e).exitLoop = false ∧
      (scheduler_iteration e).syncAttempted = true ∧
      (e.outcome = SyncOutcome.raised →
        (scheduler_iteration e).cooldownSeconds = 60) := by
    intro e h1 h2
    cases ho : e.outcome <;> simp [scheduler_iteration, h1, h2, ho]
  refine ⟨iter, ?_⟩
  intro n
  induction n with
  | zero => intro env _; rfl
  | succ n ih =>
    intro env h
    have h0 := iter (env 0) (h 0).1 (h 0).2
    have hrec := ih (fun i => env (i + 1)) (fun i => h (i + 1))
    simp only [scheduler_loop, h0.1, if_false, Bool.false_eq_true, hrec, h0.2.1]
    simp [Nat.add_comm]

theorem scheduler_loop_survives_errors_witness :
    scheduler_loop 3 (fun _ => ⟨false, false, SyncOutcome.raised⟩) = (3, true) :=
  scheduler_loop_survives_errors.2 3 (fun _ => ⟨false, false, SyncOutcome.raised⟩)
    (fun _ => ⟨rfl, rfl⟩)

theorem processGpsPoints_count_eq_accepts (tsOk : String → Bool) (now : Nat)
    (wfault : Nat → Bool) (db : DB) (ps : List GpsPoint) :
    (processGpsPoints tsOk now wfault db ps).1 =
      (gpsAccepts (processGpsPoints tsOk now wfault db ps).2.2).length := by
  induction ps generalizing wfault db with
  | nil => rfl
  | cons p ps ih =>
    simp only [processGpsPoints]
    cases hb : (storeGpsPoint tsOk now (wfault 0) db p).1 <;>
      cases hw : (storeGpsPoint tsOk now (wfault 0) db p).2.2 <;>
        simp [gpsAccepts, hb, hw, ih, Nat.add_comm]

theorem processGpsPoints_no_api_calls (tsOk : String → Bool) (now : Nat)
    (wfault : Nat → Bool) (db : DB) (ps : List GpsPoint) :
    gpsApiCalls (processGpsPoints tsOk now wfault db ps).2.2 = [] := by
  induction ps generalizing wfault db with
  | nil => rfl
  | cons p ps ih =>
    have ih' := ih (fun i => wfault (i + 1))
      (storeGpsPoint tsOk now (wfault 0) db p).2.1
    simp only [gpsApiCalls] at ih' ⊢
    simp only [processGpsPoints, List.filterMap_append]
    cases hb : (storeGpsPoint tsOk now (wfault 0) db p).1 <;>
      cases hw : (storeGpsPoint tsOk now (wfault 0) db p).2.2 <;>
        simp [hb, hw, ih']

theorem storeGpsPoint_isSome_eq (tsOk : String → Bool) (now : Nat)
    (db : DB) (p : GpsPoint) :
    ((storeGpsPoint tsOk now false db p).2.2).isSome =
      (storeGpsPoint tsOk now false db p).1 := by
  unfold storeGpsPoint
  split
  · rfl
  · split
    · rfl
    · split
      · split
        · rfl
        · split
          · rfl
          · simp [store_gps_data_checked]
      · rfl

theorem processGpsPoints_writes_length (tsOk : String → Bool) (now : Nat)
    (wfault : Nat → Bool) (db : DB) (ps : List GpsPoint)
    (h : ∀ i, wfault i = false) :
    (processGpsPoints tsOk now wfault db ps).1 =
      (gpsWrites (processGpsPoints tsOk now wfault db ps).2.2).length := by
  induction ps generalizing wfault db with
  | nil => rfl
  | cons p ps ih =>
    have h0 : wfault 0 = false := h 0
    have hsome := storeGpsPoint_isSome_eq tsOk now db p
    simp only [processGpsPoints, h0]
    cases hb : (storeGpsPoint tsOk now false db p).1 with
    | true =>
      rw [hb] at hsome
      cases hw : (storeGpsPoint tsOk now false db p).2.2 with
      | none => rw [hw] at hsome; simp at hsome
      | some row =>
        simp [gpsWrites, hb, hw, Nat.add_comm,
          ih (fun i => wfault (i + 1)) _ (fun i => h (i + 1))]
    | false =>
      cases hw : (storeGpsPoint tsOk now false db p).2.2 with
      | some row => rw [hw, hb] at hsome; simp at hsome
      | none =>
        simp [gpsWrites, hb, hw, Nat.add_comm,
          ih (fun i => wfault (i + 1)) _ (fun i => h (i + 1))]

/-- Claim C2: when the device list was fetched (the client returned data
and no sync was in progress), `sync_devices` reports overall success
exactly when `failed = 0` or `failed` is strictly below 10% of the total
records processed (`inserted + updated + failed`); at the boundary,
total 100 with 9 failures is a success and total 100 with 11 failures is a
failure. -/
theorem device_sync_partial_failure_threshold
    (ds : List RawDevice) (fault : Nat → Bool) (now : Nat)
    (st : DeviceSyncState) (h : st.sync_in_progress = false) :
    ((sync_devices (some ds) fault now st).1 = true ↔
      ((upsert_devices_batch now fault ds st.devices).2.failed = 0 ∨
        ((upsert_devices_batch now fault ds st.devices).2.failed : ℚ) <
          (((upsert_devices_batch now fault ds st.devices).2.inserted +
            (upsert_devices_batch now fault ds st.devices).2.updated +
            (upsert_devices_batch now fault ds st.devices).2.failed : Nat) : ℚ)
            / 10)) ∧
    deviceSyncSuccess ⟨91, 0, 9⟩ = true ∧ deviceSyncSuccess ⟨89, 0, 11⟩ = false := by
  refine ⟨?_, by norm_num [deviceSyncSuccess], by norm_num [deviceSyncSuccess]⟩
  simp only [sync_devices, h, Bool.false_eq_true, if_false]
  cases ds with
  | nil =>
    simp [upsert_devices_batch]
  | cons d ds =>
    simp [deviceSyncSuccess, one_div, div_eq_mul_inv]

theorem device_sync_partial_failure_threshold_witness :
    ((sync_devices (some []) (fun _ => false) 0 ⟨false, []⟩).1 = true ↔
      ((upsert_devices_batch 0 (fun _ => false) [] []).2.failed = 0 ∨
        ((upsert_devices_batch 0 (fun _ => false) [] []).2.failed : ℚ) <
          (((upsert_devices_batch 0 (fun _ => false) [] []).2.inserted +
            (upsert_devices_batch 0 (fun _ => false) [] []).2.updated +
            (upsert_devices_batch 0 (fun _ => false) [] []).2.failed : Nat) : ℚ)
            / 10)) ∧
    deviceSyncSuccess ⟨91, 0, 9⟩ = true ∧ deviceSyncSuccess ⟨89, 0, 11⟩ = false :=
  device_sync_partial_failure_threshold [] (fun _ => false) 0 ⟨false, []⟩ rfl

/-- Claim C8 counterexample: a cycle with one device and one
well-coordinated position record whose store write fails (the caught
exception of database.py lines 662-664, whose `False` return
gps_tracking_service.py lines 97-110 ignores) reports overall success with
zero rows written and the database unchanged — refuting "success iff at
least one position record was stored". -/
theorem gps_sync_success_without_store :
    (sync_gps_data
      ⟨fun _ => some [⟨some "T1", some (some 37), some (some 5), none, none,
        none, none, none, none⟩]⟩
      (fun _ => false) 0 (fun _ => true)
      ⟨[⟨"L", "T1", "S", 0, 0, 0, "", "0", "0", "", "", "", 0, "", 0, 0,
        "", "", 0⟩], [], []⟩).1 = true ∧
    gpsWrites (sync_gps_data
      ⟨fun _ => some [⟨some "T1", some (some 37), some (some 5), none, none,
        none, none, none, none⟩]⟩
      (fun _ => false) 0 (fun _ => true)
      ⟨[⟨"L", "T1", "S", 0, 0, 0, "", "0", "0", "", "", "", 0, "", 0, 0,
        "", "", 0⟩], [], []⟩).2.2 = [] ∧
    (sync_gps_data
      ⟨fun _ => some [⟨some "T1", some (some 37), some (some 5), none, none,
        none, none, none, none⟩]⟩
      (fun _ => false) 0 (fun _ => true)
      ⟨[⟨"L", "T1", "S", 0, 0, 0, "", "0", "0", "", "", "", 0, "", 0, 0,
        "", "", 0⟩], [], []⟩).2.1 =
      ⟨[⟨"L", "T1", "S", 0, 0, 0, "", "0", "0", "", "", "", 0, "", 0, 0,
        "", "", 0⟩], [], []⟩ := by
  refine ⟨by decide, by decide, by decide⟩

/-- Claim C8 (amended): `sync_gps_data` reports success exactly when at
least one fetched record was accepted — passed terid and coordinate
validation and had its storage attempted — zero accepted records (empty
device list, no API data, or every record rejected) being reported as
failure; the store write's own failure return is ignored, so an accepted
record need not be stored, but when no store write fails, success is
equivalent to at least one row actually written. -/
theorem gps_sync_success_iff_accepted (client : BrigadeAPIClient)
    (tsOk : String → Bool) (now : Nat) (wfault : Nat → Bool) (db : DB) :
    ((sync_gps_data client tsOk now wfault db).1 = true ↔
      gpsAccepts (sync_gps_data client tsOk now wfault db).2.2 ≠ []) ∧
    ((∀ i, wfault i = false) →
      ((sync_gps_data client tsOk now wfault db).1 = true ↔
        gpsWrites (sync_gps_data client tsOk now wfault db).2.2 ≠ [])) := by
  constructor
  · by_cases hdev : get_all_devices db = []
    · simp [sync_gps_data, hdev, gpsAccepts]
    · cases hapi : client.get_last_gps_positions
          ((get_all_devices db).map (fun d => d.terid)) with
      | none => simp [sync_gps_data, hdev, hapi, gpsAccepts]
      | some gd =>
        by_cases hgd : gd = []
        · simp [sync_gps_data, hdev, hapi, hgd, gpsAccepts]
        · have hc := processGpsPoints_count_eq_accepts tsOk now wfault db gd
          simp only [gpsAccepts] at hc ⊢
          simp [sync_gps_data, hdev, hapi, hgd, hc, List.length_pos]
  · intro hw
    by_cases hdev : get_all_devices db = []
    · simp [sync_gps_data, hdev, gpsWrites]
    · cases hapi : client.get_last_gps_positions
          ((get_all_devices db).map (fun d => d.terid)) with
      | none => simp [sync_gps_data, hdev, hapi, gpsWrites]
      | some gd =>
        by_cases hgd : gd = []
        · simp [sync_gps_data, hdev, hapi, hgd, gpsWrites]
        · have hc := processGpsPoints_writes_length tsOk now wfault db gd hw
          simp only [gpsWrites] at hc ⊢
          simp [sync_gps_data, hdev, hapi, hgd, hc, List.length_pos]

theorem gps_sync_success_iff_accepted_witness :
    (((sync_gps_data ⟨fun _ => none⟩ (fun _ => false) 0 (fun _ => false)
        ⟨[], [], []⟩).1 = true ↔
      gpsAccepts (sync_gps_data ⟨fun _ => none⟩ (fun _ => false) 0
        (fun _ => false) ⟨[], [], []⟩).2.2 ≠ []) ∧
    ((sync_gps_data ⟨fun _ => none⟩ (fun _ => false) 0 (fun _ => false)
        ⟨[], [], []⟩).1 = true ↔
      gpsWrites (sync_gps_data ⟨fun _ => none⟩ (fun _ => false) 0
        (fun _ => false) ⟨[], [], []⟩).2.2 ≠ [])) :=
  ⟨(gps_sync_success_iff_accepted ⟨fun _ => none⟩ (fun _ => false) 0
      (fun _ => false) ⟨[], [], []⟩).1,
   (gps_sync_success_iff_accepted ⟨fun _ => none⟩ (fun _ => false) 0
      (fun _ => false) ⟨[], [], []⟩).2 (fun _ => rfl)⟩

/-- Claim C7: a fetched GPS record whose resolved coordinates are both
exactly zero, or whose latitude is outside [-90, 90], or whose longitude is
outside [-180, 180], is skipped by `_store_gps_data`: nothing is stored,
the database is unchanged, and the record contributes nothing to the sync
cycle's success count (so its rejection cannot by itself fail the cycle). -/
theorem gps_coordinate_rejection (tsOk : String → Bool) (now : Nat)
    (wfault : Bool) (db : DB) (p : GpsPoint) (lat lng : ℚ)
    (hlat : resolveCoord p.gpslat = some lat)
    (hlng : resolveCoord p.gpslng = some lng)
    (hbad : (lat = 0 ∧ lng = 0) ∨ lat < -90 ∨ 90 < lat ∨ lng < -180 ∨ 180 < lng) :
    storeGpsPoint tsOk now wfault db p = (false, db, none) ∧
    ∀ (wf : Nat → Bool) (ps : List GpsPoint),
      processGpsPoints tsOk now wf db (p :: ps) =
        processGpsPoints tsOk now (fun i => wf (i + 1)) db ps := by
  have hmain : ∀ w : Bool, storeGpsPoint tsOk now w db p = (false, db, none) := by
    intro w
    cases ht : p.terid with
    | none => simp [storeGpsPoint, ht]
    | some t =>
      by_cases hte : t = ""
      · simp [storeGpsPoint, ht, hte]
      · by_cases hz : lat = 0 ∧ lng = 0
        · simp [storeGpsPoint, ht, hte, hlat, hlng, hz]
        · have hb : ¬(-90 ≤ lat ∧ lat ≤ 90) ∨ ¬(-180 ≤ lng ∧ lng ≤ 180) := by
            rcases hbad with h0 | h1 | h2 | h3 | h4
            · exact absurd h0 hz
            · exact Or.inl (fun hc => absurd hc.1 (not_le.mpr h1))
            · exact Or.inl (fun hc => absurd hc.2 (not_le.mpr h2))
            · exact Or.inr (fun hc => absurd hc.1 (not_le.mpr h3))
            · exact Or.inr (fun hc => absurd hc.2 (not_le.mpr h4))
          simp only [storeGpsPoint, ht, hlat, hlng]
          rw [if_neg hte, if_neg hz, if_pos hb]
  refine ⟨hmain wfault, fun wf ps => ?_⟩
  simp [processGpsPoints, hmain (wf 0)]

theorem gps_coordinate_rejection_witness :
    storeGpsPoint (fun _ => false) 0 false ⟨[], [], []⟩
      ⟨some "T1", some (some 0), some (some 0), none, none, none, none, none,
        none⟩ = (false, ⟨[], [], []⟩, none) ∧
    storeGpsPoint (fun _ => false) 0 false ⟨[], [], []⟩
      ⟨some "T1", some (some 200), some (some 5), none, none, none, none, none,
        none⟩ = (false, ⟨[], [], []⟩, none) :=
  ⟨(gps_coordinate_rejection (fun _ => false) 0 false ⟨[], [], []⟩
      ⟨some "T1", some (some 0), some (some 0), none, none, none, none, none,
        none⟩ 0 0 rfl rfl (Or.inl ⟨rfl, rfl⟩)).1,
   (gps_coordinate_rejection (fun _ => false) 0 false ⟨[], [], []⟩
      ⟨some "T1", some (some 200), some (some 5), none, none, none, none, none,
        none⟩ 200 5 rfl rfl (Or.inr (Or.inr (Or.inl (by decide))))).1⟩

/-- Claim C1: the (spec-modelled) API client operation for latest GPS
positions takes the full device-identifier list, and `sync_gps_data`
obtains the positions for all known devices through exactly one call to
that operation, placed before every store write of the cycle. -/
theorem gps_sync_single_fetch_call (client : BrigadeAPIClient)
    (tsOk : String → Bool) (now : Nat) (wfault : Nat → Bool) (db : DB)
    (h : db.devices ≠ []) :
    ∃ evs, (sync_gps_data client tsOk now wfault db).2.2 =
        GpsEvent.apiCall ((get_all_devices db).map (fun d => d.terid)) :: evs ∧
      gpsApiCalls evs = [] := by
  have hdev : get_all_devices db ≠ [] := by
    unfold get_all_devices
    rw [Ne, sortBy_eq_nil_iff]
    exact h
  cases hapi : client.get_last_gps_positions
      ((get_all_devices db).map (fun d => d.terid)) with
  | none =>
    refine ⟨[], ?_, rfl⟩
    simp [sync_gps_data, hdev, hapi]
  | some gd =>
    by_cases hgd : gd = []
    · refine ⟨[], ?_, rfl⟩
      simp [sync_gps_data, hdev, hapi, hgd]
    · refine ⟨(processGpsPoints tsOk now wfault db gd).2.2, ?_,
        processGpsPoints_no_api_calls tsOk now wfault db gd⟩
      simp [sync_gps_data, hdev, hapi, hgd]

theorem gps_sync_single_fetch_call_witness :
    ∃ evs,
      (sync_gps_data ⟨fun _ => none⟩ (fun _ => false) 0 (fun _ => false)
        ⟨[⟨"L", "T1", "S", 0, 0, 0, "", "0", "0", "", "", "", 0, "", 0, 0,
          "", "", 0⟩], [], []⟩).2.2 =
        GpsEvent.apiCall ((get_all_devices
          ⟨[⟨"L", "T1", "S", 0, 0, 0, "", "0", "0", "", "", "", 0, "", 0, 0,
            "", "", 0⟩], [], []⟩).map (fun d => d.terid)) :: evs ∧
      gpsApiCalls evs = [] :=
  gps_sync_single_fetch_call ⟨fun _ => none⟩ (fun _ => false) 0
    (fun _ => false)
    ⟨[⟨"L", "T1", "S", 0, 0, 0, "", "0", "0", "", "", "", 0, "", 0, 0,
      "", "", 0⟩], [], []⟩ (by decide)

theorem alarmCounts_add_zero (c : AlarmCounts) : c.add ⟨0, 0, 0⟩ = c := by
  cases c
  simp [AlarmCounts.add]

theorem batchCounts_add_zero (c : BatchCounts) : c.add ⟨0, 0, 0⟩ = c := by
  cases c
  simp [BatchCounts.add]

/-- Claim C4: inserting the same alarm key tuple (`terid`, alarm time, type
code, content) twice via `insert_alarms_batch` reports `inserted = 1` on
the first call and `duplicates = 1` (with `inserted = 0`) on the second,
and exactly one stored row matches that tuple afterwards. -/
theorem alarm_insert_dedup (a b : RawAlarm) (store : List AlarmRow)
    (hk1 : a.terid.isSome = true) (hk2 : a.gpstime.isSome = true)
    (hk3 : a.type.isSome = true) (hk4 : a.content.isSome = true)
    (heq : b.terid = a.terid ∧ b.gpstime = a.gpstime ∧ b.type = a.type ∧
      b.content = a.content)
    (hnew : store.any (fun r => alarmConflict a r) = false) :
    (insert_alarms_batch (fun _ => false) [a] store).2 = ⟨1, 0, 0⟩ ∧
    (insert_alarms_batch (fun _ => false) [b]
        (insert_alarms_batch (fun _ => false) [a] store).1).2 = ⟨0, 1, 0⟩ ∧
    (insert_alarms_batch (fun _ => false) [b]
        (insert_alarms_batch (fun _ => false) [a] store).1).1.countP
      (fun r => alarmConflict a r) = 1 := by
  have hfun : (fun r => alarmConflict b r) = (fun r => alarmConflict a r) := by
    funext r
    simp [alarmConflict, heq.1, heq.2.1, heq.2.2.1, heq.2.2.2]
  have hself : alarmConflict a (alarmRowOf a) = true := by
    simp [alarmConflict, alarmRowOf, hk1, hk2, hk3, hk4]
  have h1 : insert_alarms_batch (fun _ => false) [a] store =
      (store ++ [alarmRowOf a], ⟨1, 0, 0⟩) := by
    simp [insert_alarms_batch, insertAlarmStep, hnew, AlarmCounts.add]
  have hany1 : (store ++ [alarmRowOf a]).any (fun r => alarmConflict b r) = true := by
    rw [hfun]
    simp [hself]
  have h2 : insert_alarms_batch (fun _ => false) [b] (store ++ [alarmRowOf a]) =
      (store ++ [alarmRowOf a], ⟨0, 1, 0⟩) := by
    simp [insert_alarms_batch, insertAlarmStep, hany1, AlarmCounts.add]
  have hz : store.countP (fun r => alarmConflict a r) = 0 := by
    rw [List.countP_eq_zero]
    intro r hr
    simp only [List.any_eq_false] at hnew
    exact hnew r hr
  refine ⟨by simp [h1], by simp [h1, h2], ?_⟩
  simp [h1, h2, List.countP_append, hz, hself]

theorem alarm_insert_dedup_witness :
    (insert_alarms_batch (fun _ => false)
      [⟨some "T1", some "2024-01-01 00:00:00", none, none, none, none, none,
        none, none, none, some 13, some "Panic Button", none⟩] []).2 =
      ⟨1, 0, 0⟩ ∧
    (insert_alarms_batch (fun _ => false)
      [⟨some "T1", some "2024-01-01 00:00:00", none, none, none, none, none,
        none, none, none, some 13, some "Panic Button", none⟩]
      (insert_alarms_batch (fun _ => false)
        [⟨some "T1", some "2024-01-01 00:00:00", none, none, none, none, none,
          none, none, none, some 13, some "Panic Button", none⟩] []).1).2 =
      ⟨0, 1, 0⟩ ∧
    (insert_alarms_batch (fun _ => false)
      [⟨some "T1", some "2024-01-01 00:00:00", none, none, none, none, none,
        none, none, none, some 13, some "Panic Button", none⟩]
      (insert_alarms_batch (fun _ => false)
        [⟨some "T1", some "2024-01-01 00:00:00", none, none, none, none, none,
          none, none, none, some 13, some "Panic Button", none⟩] []).1).1.countP
      (fun r => alarmConflict
        ⟨some "T1", some "2024-01-01 00:00:00", none, none, none, none, none,
          none, none, none, some 13, some "Panic Button", none⟩ r) = 1 :=
  alarm_insert_dedup
    ⟨some "T1", some "2024-01-01 00:00:00", none, none, none, none, none,
      none, none, none, some 13, some "Panic Button", none⟩
    ⟨some "T1", some "2024-01-01 00:00:00", none, none, none, none, none,
      none, none, none, some 13, some "Panic Button", none⟩
    [] rfl rfl rfl rfl ⟨rfl, rfl, rfl, rfl⟩ rfl

theorem rowOfNorm_terid (nd : NormDevice) (t : String) (now : Nat) :
    (rowOfNorm nd t now).terid = t := rfl

theorem teridCount_map_update (t t0 : String) (nd : NormDevice) (now : Nat)
    (store : List DeviceRow) :
    teridCount t (store.map
      (fun r => if r.terid == t0 then rowOfNorm nd r.terid now else r)) =
      teridCount t store := by
  unfold teridCount
  rw [List.countP_map]
  have hcomp : ((fun r => r.terid == t) ∘
      (fun r => if r.terid == t0 then rowOfNorm nd r.terid now else r)) =
      fun r => r.terid == t := by
    funext r
    by_cases hr : (r.terid == t0) = true <;> simp [Function.comp, hr, rowOfNorm]
  rw [hcomp]

theorem teridCount_append_single (u : String) (store : List DeviceRow)
    (x : DeviceRow) :
    teridCount u (store ++ [x]) =
      teridCount u store + (if x.terid == u then 1 else 0) := by
  simp [teridCount, List.countP_append, List.countP_cons]

theorem any_false_teridCount_zero (t : String) (store : List DeviceRow)
    (h : store.any (fun r => r.terid == t) = false) : teridCount t store = 0 := by
  unfold teridCount
  rw [List.countP_eq_zero]
  intro r hr
  simp only [List.any_eq_false] at h
  exact h r hr

theorem any_true_teridCount_pos (t : String) (store : List DeviceRow)
    (h : store.any (fun r => r.terid == t) = true) : 0 < teridCount t store := by
  unfold teridCount
  rw [List.countP_pos_iff]
  simpa using h

theorem upsert_batch_single_fst (now : Nat) (d : RawDevice)
    (store : List DeviceRow) :
    (upsert_devices_batch now (fun _ => false) [d] store).1 =
      (upsertDeviceStep now false d store).1 := rfl

theorem upsert_batch_single_snd (now : Nat) (d : RawDevice)
    (store : List DeviceRow) :
    (upsert_devices_batch now (fun _ => false) [d] store).2 =
      (upsertDeviceStep now false d store).2 := by
  show (upsertDeviceStep now false d store).2.add ⟨0, 0, 0⟩ = _
  rw [batchCounts_add_zero]

theorem upsertDeviceStep_update_fst (now : Nat) (d : RawDevice)
    (store : List DeviceRow) (t : String)
    (ht : (normalize_device_data d).terid = some t)
    (hex : store.any (fun r => r.terid == t) = true) :
    (upsertDeviceStep now false d store).1 =
      store.map (fun r => if r.terid == t then
        rowOfNorm (normalize_device_data d) r.terid now else r) := by
  simp [upsertDeviceStep, ht, hex]

theorem upsertDeviceStep_update_snd (now : Nat) (d : RawDevice)
    (store : List DeviceRow) (t : String)
    (ht : (normalize_device_data d).terid = some t)
    (hex : store.any (fun r => r.terid == t) = true) :
    (upsertDeviceStep now false d store).2 = ⟨0, 1, 0⟩ := by
  simp [upsertDeviceStep, ht, hex]

theorem upsertDeviceStep_insert_fst (now : Nat) (d : RawDevice)
    (store : List DeviceRow) (t : String)
    (ht : (normalize_device_data d).terid = some t)
    (hex : store.any (fun r => r.terid == t) = false) :
    (upsertDeviceStep now false d store).1 =
      store ++ [rowOfNorm (normalize_device_data d) t now] := by
  simp [upsertDeviceStep, ht, hex]

theorem any_map_update (t : String) (nd : NormDevice) (now : Nat)
    (store : List DeviceRow) :
    (store.map (fun r => if r.terid == t then rowOfNorm nd r.terid now
      else r)).any (fun r => r.terid == t) =
      store.any (fun r => r.terid == t) := by
  rw [List.any_map]
  have hcomp : ((fun r => r.terid == t) ∘
      (fun r => if r.terid == t then rowOfNorm nd r.terid now else r)) =
      fun r => r.terid == t := by
    funext r
    by_cases hr : (r.terid == t) = true <;> simp [Function.comp, hr, rowOfNorm]
  rw [hcomp]

theorem upsertDeviceStep_inv (now : Nat) (b : Bool) (d : RawDevice)
    (store : List DeviceRow) (h : ∀ u, teridCount u store ≤ 1) :
    ∀ u, teridCount u (upsertDeviceStep now b d store).1 ≤ 1 := by
  intro u
  cases b with
  | true => simpa [upsertDeviceStep] using h u
  | false =>
    cases hterid : (normalize_device_data d).terid with
    | none => simpa [upsertDeviceStep, hterid] using h u
    | some t =>
      cases hex : store.any (fun r => r.terid == t) with
      | true =>
        rw [upsertDeviceStep_update_fst now d store t hterid hex,
          teridCount_map_update]
        exact h u
      | false =>
        rw [upsertDeviceStep_insert_fst now d store t hterid hex,
          teridCount_append_single]
        by_cases htu : (t == u) = true
        · have htu' : t = u := by simpa using htu
          have hz : teridCount u store = 0 := by
            apply any_false_teridCount_zero
            rw [← htu']
            exact hex
          simp [hz, rowOfNorm, htu]
        · simpa [rowOfNorm, htu] using h u

theorem filter_map_single (store1 : List DeviceRow) (t : String)
    (nd : NormDevice) (now2 : Nat)
    (h : store1.countP (fun r => r.terid == t) = 1) :
    (store1.map
      (fun r => if r.terid == t then rowOfNorm nd r.terid now2 else r)).filter
        (fun r => r.terid == t) = [rowOfNorm nd t now2] := by
  induction store1 with
  | nil => simp at h
  | cons r rs ih =>
    by_cases hr : (r.terid == t) = true
    · have hteq : r.terid = t := by simpa using hr
      have hz : rs.countP (fun x => x.terid == t) = 0 := by
        simp only [List.countP_cons, hr, if_true] at h
        omega
      have htail : (rs.map
          (fun x => if x.terid == t then rowOfNorm nd x.terid now2 else x)).filter
            (fun x => x.terid == t) = [] := by
        rw [List.filter_eq_nil_iff]
        intro x hx
        obtain ⟨x0, hx0, rfl⟩ := List.mem_map.mp hx
        have hnx : ¬(x0.terid == t) = true := List.countP_eq_zero.mp hz x0 hx0
        simp [hnx]
      have hhead : ((rowOfNorm nd t now2).terid == t) = true := by
        simp [rowOfNorm]
      simp only [List.map_cons, List.filter_cons, if_pos hr, hteq, hhead,
        if_true, htail]
      simp [rowOfNorm]
    · have h1 : rs.countP (fun x => x.terid == t) = 1 := by
        simp only [List.countP_cons, hr, if_false, Bool.false_eq_true] at h
        omega
      simp only [List.map_cons, List.filter_cons, if_neg hr]
      exact ih h1

/-- Claim C5: `upsert_devices_batch` preserves the invariant of at most one
device row per `terid`, and upserting the same payload twice leaves exactly
one row for its `terid`: the second call is counted as an update (not an
insert), rewrites the row's mutable fields in place from the payload and
stamps the new `last_updated` time. -/
theorem device_upsert_idempotent :
    (∀ (now : Nat) (fault : Nat → Bool) (ds : List RawDevice)
      (store : List DeviceRow), (∀ u, teridCount u store ≤ 1) →
      ∀ u, teridCount u (upsert_devices_batch now fault ds store).1 ≤ 1) ∧
    (∀ (d : RawDevice) (store : List DeviceRow) (now1 now2 : Nat) (t : String),
      (∀ u, teridCount u store ≤ 1) →
      (normalize_device_data d).terid = some t →
      ((upsert_devices_batch now2 (fun _ => false) [d]
          (upsert_devices_batch now1 (fun _ => false) [d] store).1).2 =
        ⟨0, 1, 0⟩ ∧
       (upsert_devices_batch now2 (fun _ => false) [d]
          (upsert_devices_batch now1 (fun _ => false) [d] store).1).1.filter
            (fun r => r.terid == t) =
        [rowOfNorm (normalize_device_data d) t now2])) := by
  have second_call : ∀ (d : RawDevice) (S1 : List DeviceRow) (now2 : Nat)
      (t : String), (normalize_device_data d).terid = some t →
      S1.any (fun r => r.terid == t) = true → teridCount t S1 = 1 →
      ((upsert_devices_batch now2 (fun _ => false) [d] S1).2 = ⟨0, 1, 0⟩ ∧
       (upsert_devices_batch now2 (fun _ => false) [d] S1).1.filter
          (fun r => r.terid == t) =
        [rowOfNorm (normalize_device_data d) t now2]) := by
    intro d S1 now2 t ht hany1 hcount1
    constructor
    · rw [upsert_batch_single_snd, upsertDeviceStep_update_snd now2 d S1 t ht hany1]
    · rw [upsert_batch_single_fst, upsertDeviceStep_update_fst now2 d S1 t ht hany1]
      exact filter_map_single S1 t (normalize_device_data d) now2 hcount1
  constructor
  · intro now fault ds
    induction ds generalizing fault with
    | nil => intro store h u; exact h u
    | cons d ds ih =>
      intro store h u
      exact ih (fun i => fault (i + 1))
        (upsertDeviceStep now (fault 0) d store).1
        (upsertDeviceStep_inv now (fault 0) d store h) u
  · intro d store now1 now2 t hinv ht
    rw [upsert_batch_single_fst]
    cases hex : store.any (fun r => r.terid == t) with
    | true =>
      rw [upsertDeviceStep_update_fst now1 d store t ht hex]
      apply second_call d _ now2 t ht
      · rw [any_map_update]
        exact hex
      · rw [teridCount_map_update]
        have hpos := any_true_teridCount_pos t store hex
        have hle := hinv t
        omega
    | false =>
      rw [upsertDeviceStep_insert_fst now1 d store t ht hex]
      apply second_call d _ now2 t ht
      · simp [rowOfNorm]
      · rw [teridCount_append_single, any_false_teridCount_zero t store hex]
        simp [rowOfNorm]

theorem device_upsert_idempotent_witness :
    teridCount "T1" (upsert_devices_batch 0 (fun _ => false)
      [⟨none, some "ABC", some "T1", none, none, none, none, none, none,
        none, none, none, none, none, none, none, none, none, none, none,
        none⟩] []).1 ≤ 1 ∧
    ((upsert_devices_batch 7 (fun _ => false)
      [⟨none, some "ABC", some "T1", none, none, none, none, none, none,
        none, none, none, none, none, none, none, none, none, none, none,
        none⟩]
      (upsert_devices_batch 3 (fun _ => false)
        [⟨none, some "ABC", some "T1", none, none, none, none, none, none,
          none, none, none, none, none, none, none, none, none, none, none,
          none⟩] []).1).2 = ⟨0, 1, 0⟩ ∧
     (upsert_devices_batch 7 (fun _ => false)
      [⟨none, some "ABC", some "T1", none, none, none, none, none, none,
        none, none, none, none, none, none, none, none, none, none, none,
        none⟩]
      (upsert_devices_batch 3 (fun _ => false)
        [⟨none, some "ABC", some "T1", none, none, none, none, none, none,
          none, none, none, none, none, none, none, none, none, none, none,
          none⟩] []).1).1.filter (fun r => r.terid == "T1") =
      [rowOfNorm (normalize_device_data
        ⟨none, some "ABC", some "T1", none, none, none, none, none, none,
          none, none, none, none, none, none, none, none, none, none, none,
          none⟩) "T1" 7]) :=
  ⟨device_upsert_idempotent.1 0 (fun _ => false)
    [⟨none, some "ABC", some "T1", none, none, none, none, none, none,
      none, none, none, none, none, none, none, none, none, none, none,
      none⟩] [] (fun u => by simp [teridCount]) "T1",
   device_upsert_idempotent.2
    ⟨none, some "ABC", some "T1", none, none, none, none, none, none,
      none, none, none, none, none, none, none, none, none, none, none,
      none⟩ [] 3 7 "T1" (fun u => by simp [teridCount]) (by decide)⟩

end BrigadeHeatmap
